import Mathlib

/-
Shallow embedding of the query-construction and result-shaping layer of the
todoist-ai MCP server (TypeScript), together with proofs about the claims of
its specification.  JavaScript strings are modelled as lists of characters
(JStr); JavaScript `undefined`/`null` on string-valued fields is modelled with
Option; JavaScript string truthiness (empty string is falsy) is modelled by
strTruthy.
-/

namespace TodoistAI

/-- Decidable equality for `Except` (used to evaluate run outcomes on
concrete inputs). -/
instance exceptDecidableEq {ε α : Type} [DecidableEq ε] [DecidableEq α] :
    DecidableEq (Except ε α) := fun a b =>
  match a, b with
  | Except.ok x, Except.ok y =>
    if h : x = y then isTrue (congrArg Except.ok h)
    else isFalse (fun hh => h (Except.ok.inj hh))
  | Except.error x, Except.error y =>
    if h : x = y then isTrue (congrArg Except.error h)
    else isFalse (fun hh => h (Except.error.inj hh))
  | Except.ok _, Except.error _ => isFalse (fun hh => Except.noConfusion hh)
  | Except.error _, Except.ok _ => isFalse (fun hh => Except.noConfusion hh)

/-- JavaScript string, modelled as a list of characters. -/
abbrev JStr := List Char

/-- Truthiness of a JS `string | null | undefined` value: `undefined`, `null`
and the empty string are falsy. -/
def strTruthy : Option JStr → Bool
  | none => false
  | some s => !s.isEmpty

/-- JS `String.prototype.toLowerCase`, restricted to the ASCII lowering that
`Char.toLower` performs (all inputs exercised by this code base are ASCII). -/
def jsToLower (s : JStr) : JStr := s.map Char.toLower

/-- JS `String.prototype.includes`: `hasSub hay needle` is true iff `needle`
occurs contiguously inside `hay` (the empty needle always occurs). -/
def hasSub (hay needle : JStr) : Bool :=
  match hay with
  | [] => needle.isEmpty
  | _ :: t => needle.isPrefixOf hay || hasSub t needle

theorem hasSub_subset {hay needle : JStr} (h : hasSub hay needle = true) :
    ∀ c ∈ needle, c ∈ hay := by
  induction hay with
  | nil =>
    intro c hc
    simp [hasSub, List.isEmpty_iff] at h
    simp [h] at hc
  | cons a t ih =>
    intro c hc
    simp only [hasSub, Bool.or_eq_true] at h
    rcases h with h | h
    · have hpre : needle <+: a :: t := by
        exact (List.isPrefixOf_iff_prefix).1 h
      exact hpre.subset hc
    · exact List.mem_cons_of_mem a (ih h c hc)

/-- `appendToQuery` from `filter-helpers.ts`: appends a filter component to a
running query string, inserting the " & " joiner only when both sides are
non-empty. -/
def appendToQuery (query filterComponent : JStr) : JStr :=
  if filterComponent.length = 0 then query
  else if query.length = 0 then filterComponent
  else query ++ (" & ".toList) ++ filterComponent

/-- Does a string begin with the '&' joiner character? -/
def ampStart (s : JStr) : Bool :=
  match s with
  | [] => false
  | c :: _ => c = '&'

/-- Does a string end with the '&' joiner character? -/
def ampEnd (s : JStr) : Bool :=
  match s.getLast? with
  | none => false
  | some c => c = '&'

/-- Labels operator of the label-filter schema: `and` or `or` (`or` is the
zod default). -/
inductive LabelsOp where
  | and
  | or
deriving DecidableEq, Repr

/-- Modelled from the spec: `generateLabelsFilter` lives in `utils/labels.ts`,
which is not among the provided sources (only its callers and tests are).
Per spec §4.1: each label is normalized by stripping a leading `@` before
re-adding it; the labels are joined with the double-spaced operator
(`  &  ` for `and`, `  |  ` for `or`) inside one pair of parentheses; an
empty label list yields the empty string.  This step strips a leading `@`. -/
def stripLeadingAt (label : JStr) : JStr :=
  match label with
  | c :: rest => if c = '@' then rest else c :: rest
  | [] => []

/-- Modelled from the spec: `generateLabelsFilter` of `utils/labels.ts`
(see `stripLeadingAt` above); output shapes are pinned by the label-filtering
tests of find-tasks and find-completed-tasks. -/
def generateLabelsFilter (labels : List JStr) (labelsOperator : LabelsOp) : JStr :=
  if labels.isEmpty then []
  else
    let sep : JStr := if labelsOperator = LabelsOp.and then "  &  ".toList else "  |  ".toList
    let parts := labels.map (fun l => '@' :: stripLeadingAt l)
    ('(' :: List.intercalate sep parts) ++ [')']

/-- Responsible-user filtering mode (`RESPONSIBLE_USER_FILTERING`). -/
inductive RUFMode where
  | assigned
  | unassignedOrMe
  | all
deriving DecidableEq, Repr

/-- `filterTasksByResponsibleUser` from `tool-helpers.ts` / `filter-helpers.ts`
(the two copies are identical).  Generic over the element type, with the
`responsibleUid` projection passed explicitly (the TS function is generic over
`T extends \x7b responsibleUid: string | null \x7d`).  `resolvedAssigneeId`
and `responsibleUid` follow JS truthiness; the mode defaults to
`unassignedOrMe` when the caller passes `undefined`. -/
def filterTasksByResponsibleUser {α : Type} (resUid : α → Option JStr)
    (tasks : List α) (resolvedAssigneeId : Option JStr) (currentUserId : JStr)
    (responsibleUserFiltering : Option RUFMode) : List α :=
  let mode := responsibleUserFiltering.getD RUFMode.unassignedOrMe
  if strTruthy resolvedAssigneeId then
    tasks.filter (fun t => resUid t = resolvedAssigneeId)
  else
    if mode = RUFMode.unassignedOrMe then
      tasks.filter (fun t => !strTruthy (resUid t) || resUid t = some currentUserId)
    else
      tasks

/-- Decimal rendering of a natural number (JS template-literal coercion of a
non-negative number to a string). -/
def natToChars (n : Nat) : JStr := Nat.toDigits 10 n

/-- Decimal rendering of an integer (JS template-literal coercion). -/
def intToChars (i : Int) : JStr :=
  if i < 0 then '-' :: natToChars i.natAbs else natToChars i.natAbs

/-- The `due` object of a raw API task (`task.due`): a date-only due date, the
recurring flag, and the human-readable recurrence phrase (field `string`). -/
structure DueInfo where
  date : JStr
  isRecurring : Bool
  string : JStr
deriving DecidableEq, Repr

/-- The `duration` object of a raw API task (`task.duration`); only `amount`
(in minutes) is consumed by the mapper. -/
structure DurationInfo where
  amount : Nat
deriving DecidableEq, Repr

/-- Raw API task, restricted to the fields read by `mapTask`. -/
structure RawTask where
  id : JStr
  content : JStr
  description : JStr
  due : Option DueInfo
  priority : Nat
  projectId : JStr
  sectionId : Option JStr
  parentId : Option JStr
  labels : List JStr
  duration : Option DurationInfo
  responsibleUid : Option JStr
  assignedByUid : Option JStr
deriving DecidableEq, Repr

/-- Modelled from the spec: `formatDuration` lives in
`utils/duration-parser.ts`, which is not among the provided sources.  Per spec
§4.4 it converts a minute amount into a compact human string — 0 → "0m",
90 → "1h30m", 120 → "2h" (no trailing "0m" when the minutes component is
zero). -/
def formatDuration (amount : Nat) : JStr :=
  let h := amount / 60
  let m := amount % 60
  if h = 0 then natToChars m ++ ['m']
  else if m = 0 then natToChars h ++ ['h']
  else natToChars h ++ ['h'] ++ natToChars m ++ ['m']

/-- Mapped task (the stable shape produced by `mapTask`).  The TS `recurring`
field holds either `false` or the recurrence phrase; it is modelled as
`Option JStr` with `none` for `false`.  `duration` is the formatted string or
`null`. -/
structure MappedTask where
  id : JStr
  content : JStr
  description : JStr
  dueDate : Option JStr
  recurring : Option JStr
  priority : Nat
  projectId : JStr
  sectionId : Option JStr
  parentId : Option JStr
  labels : List JStr
  duration : Option JStr
  responsibleUid : Option JStr
  assignedByUid : Option JStr
deriving DecidableEq, Repr

/-- `mapTask` from `tool-helpers.ts`: maps a raw API task to the structured
shape for LLM consumption.  `recurring` is
`task.due?.isRecurring && task.due.string ? task.due.string : false` (an empty
recurrence phrase is falsy); `priority` is `task.priority`, copied as is. -/
def mapTask (task : RawTask) : MappedTask :=
  { id := task.id
    content := task.content
    description := task.description
    dueDate := task.due.map DueInfo.date
    recurring :=
      match task.due with
      | some du => if du.isRecurring && !du.string.isEmpty then some du.string else none
      | none => none
    priority := task.priority
    projectId := task.projectId
    sectionId := task.sectionId
    parentId := task.parentId
    labels := task.labels
    duration := task.duration.map (fun d => formatDuration d.amount)
    responsibleUid := task.responsibleUid
    assignedByUid := task.assignedByUid }

/-- The two raw project variants: personal projects carry `parentId` and
`inboxProject`; workspace projects do not (`isPersonalProject` /
`isWorkspaceProject` discriminate by field presence). -/
inductive ProjectKind where
  | personal (parentId : Option JStr) (inboxProject : Option Bool)
  | workspace
deriving DecidableEq, Repr

/-- Raw API project, restricted to the fields read by `mapProject` and the
search tool. -/
structure RawProject where
  id : JStr
  name : JStr
  color : JStr
  isFavorite : Bool
  isShared : Bool
  viewStyle : JStr
  kind : ProjectKind
deriving DecidableEq, Repr

/-- Mapped project (the shape produced by `mapProject`). -/
structure MappedProject where
  id : JStr
  name : JStr
  color : JStr
  isFavorite : Bool
  isShared : Bool
  parentId : Option JStr
  inboxProject : Bool
  viewStyle : JStr
deriving DecidableEq, Repr

/-- `mapProject` from `tool-helpers.ts`: personal projects surface
`parentId ?? null` and `inboxProject ?? false`; workspace projects get `null`
and `false`. -/
def mapProject (project : RawProject) : MappedProject :=
  { id := project.id
    name := project.name
    color := project.color
    isFavorite := project.isFavorite
    isShared := project.isShared
    parentId :=
      match project.kind with
      | ProjectKind.personal parentId _ => parentId
      | ProjectKind.workspace => none
    inboxProject :=
      match project.kind with
      | ProjectKind.personal _ inboxProject => inboxProject.getD false
      | ProjectKind.workspace => false
    viewStyle := project.viewStyle }

/-- The user-facing priority enum of `utils/priorities.ts`: p1 (highest) …
p4 (lowest/default). -/
inductive Priority where
  | p1
  | p2
  | p3
  | p4
deriving DecidableEq, Repr

/-- `convertPriorityToNumber` from `utils/priorities.ts`: the Todoist API uses
the inverse mapping p1=4 (highest), p2=3, p3=2, p4=1 (lowest). -/
def convertPriorityToNumber (priority : Priority) : Nat :=
  match priority with
  | Priority.p1 => 4
  | Priority.p2 => 3
  | Priority.p3 => 2
  | Priority.p4 => 1

/-- `convertNumberToPriority` from `utils/priorities.ts`: converts Todoist API
numbers back to the enum (API 4 → p1, 3 → p2, 2 → p3, 1 → p4, anything else
undefined). -/
def convertNumberToPriority (priority : Nat) : Option Priority :=
  match priority with
  | 4 => some Priority.p1
  | 3 => some Priority.p2
  | 2 => some Priority.p3
  | 1 => some Priority.p4
  | _ => none

/-- The `responseData` object of the structured upstream error shape
(`ErrorSchema` in `tool-helpers.ts`). -/
structure ErrorResponseData where
  error : JStr
  errorCode : Int
  errorTag : JStr
deriving DecidableEq, Repr

/-- The structured upstream error shape accepted by `ErrorSchema.safeParse`:
an `httpStatusCode` plus `responseData` with `error`, `errorCode`,
`errorTag`. -/
structure StructuredApiError where
  httpStatusCode : Int
  responseData : ErrorResponseData
deriving DecidableEq, Repr

/-- A value thrown by the upstream client call: either it matches the
structured shape (so `ErrorSchema.safeParse` succeeds on it), or it is some
other value, identified opaquely by a tag. -/
inductive UpstreamError where
  | structured (e : StructuredApiError)
  | unrecognized (tagId : Nat)
deriving DecidableEq, Repr

/-- A value thrown by this layer: a freshly constructed `Error` with a
message, or an upstream value re-thrown unchanged. -/
inductive ThrownError where
  | newError (message : JStr)
  | rethrown (original : UpstreamError)
deriving DecidableEq, Repr

/-- `getTasksByFilter` from `tool-helpers.ts`.  The network call itself is an
external effect, so its outcome (`client.getTasksByFilter` resolving with
results/cursor or rejecting with a thrown value) is passed in; the function
maps results with `mapTask` on success and translates errors on failure:
the `INVALID_SEARCH_QUERY` tag becomes `Invalid filter query: <query>`, other
structured errors become `<message> (tag: <tag>, code: <code>)`, and
unrecognized shapes are re-thrown unchanged. -/
def getTasksByFilter
    (fetchOutcome : Except UpstreamError (List RawTask × Option JStr))
    (query : JStr) : Except ThrownError (List MappedTask × Option JStr) :=
  match fetchOutcome with
  | Except.ok (results, nextCursor) => Except.ok (results.map mapTask, nextCursor)
  | Except.error err =>
    match err with
    | UpstreamError.structured e =>
      if e.responseData.errorTag = ("INVALID_SEARCH_QUERY".toList) then
        Except.error (ThrownError.newError (("Invalid filter query: ".toList) ++ query))
      else
        Except.error (ThrownError.newError
          (e.responseData.error ++ (" (tag: ".toList) ++ e.responseData.errorTag ++
            (", code: ".toList) ++ intToChars e.responseData.errorCode ++ (")".toList)))
    | UpstreamError.unrecognized _ => Except.error (ThrownError.rethrown err)

/-- A proleptic Gregorian calendar date (used to model the date-only values
that `date-fns` `addDays`/`formatISO` manipulate). -/
structure CivilDate where
  year : Int
  month : Nat
  day : Nat
deriving DecidableEq, Repr

/-- Serial day number of a civil date (days since 1970-01-01), by the standard
era-based algorithm. -/
def daysFromCivil (dt : CivilDate) : Int :=
  let y := if dt.month ≤ 2 then dt.year - 1 else dt.year
  let era := (if 0 ≤ y then y else y - 399) / 400
  let yoe := (y - era * 400).toNat
  let mp := (dt.month + 9) % 12
  let doy := (153 * mp + 2) / 5 + dt.day - 1
  let doe := yoe * 365 + yoe / 4 - yoe / 100 + doy
  era * 146097 + (doe : Int) - 719468

/-- Civil date of a serial day number (inverse of `daysFromCivil`), by the
standard era-based algorithm. -/
def civilFromDays (z0 : Int) : CivilDate :=
  let z := z0 + 719468
  let era := (if 0 ≤ z then z else z - 146096) / 146097
  let doe := (z - era * 146097).toNat
  let yoe := (doe - doe / 1460 + doe / 36524 - doe / 146096) / 365
  let y := (yoe : Int) + era * 400
  let doy := doe - (365 * yoe + yoe / 4 - yoe / 100)
  let mp := (5 * doy + 2) / 153
  let d := doy - (153 * mp + 2) / 5 + 1
  let m := if mp < 10 then mp + 3 else mp - 9
  { year := if m ≤ 2 then y + 1 else y, month := m, day := d }

/-- Calendar day addition: `date-fns` `addDays` on a date-only value. -/
def addDays (dt : CivilDate) (n : Nat) : CivilDate :=
  civilFromDays (daysFromCivil dt + n)

/-- The ten decimal digit characters. -/
def digitChars : JStr := "0123456789".toList

/-- The decimal digit character of `n % 10`. -/
def natDigitChar (n : Nat) : Char :=
  digitChars.get ⟨n % 10, by
    have h : n % 10 < 10 := Nat.mod_lt _ (by decide)
    simpa [digitChars] using h⟩

/-- Two-digit zero-padded rendering (for months and days). -/
def pad2 (n : Nat) : JStr := [natDigitChar (n / 10), natDigitChar n]

/-- Four-digit zero-padded rendering (for years in the supported range). -/
def pad4 (n : Nat) : JStr :=
  [natDigitChar (n / 1000), natDigitChar (n / 100), natDigitChar (n / 10), natDigitChar n]

/-- `formatISO(date, \x7b representation: 'date' \x7d)`: the `YYYY-MM-DD`
rendering of a civil date (years of this domain are four-digit). -/
def formatISODate (dt : CivilDate) : JStr :=
  pad4 dt.year.toNat ++ ['-'] ++ pad2 dt.month ++ ['-'] ++ pad2 dt.day

/-- Digits of a decimal string parsed as a natural number. -/
def parseNat (s : JStr) : Nat :=
  s.foldl (fun acc c => acc * 10 + (c.toNat - 48)) 0

/-- Parse a `YYYY-MM-DD` string to a civil date (the zod schema of
find-tasks-by-date only admits strings of this shape, or the literal
`today`). -/
def parseISODate (s : JStr) : CivilDate :=
  let parts := s.splitOn '-'
  { year := (parseNat (parts.getD 0 []) : Int)
    month := parseNat (parts.getD 1 [])
    day := parseNat (parts.getD 2 []) }

/-- The `overdueOption` enum of find-tasks-by-date. -/
inductive OverdueOpt where
  | overdueOnly
  | includeOverdue
  | excludeOverdue
deriving DecidableEq, Repr

/-- The date portion of the query built by `findTasksByDate.execute`
(`find-tasks-by-date.ts`): `overdue` for overdue-only; `today` or
`(today | overdue)` for the `today` anchor depending on `exclude-overdue`;
and for an explicit start date the half-open window fragment whose end bound
is the start date plus `daysCount` days. -/
def findTasksByDateDateFragment (startDate : Option JStr)
    (overdueOption : Option OverdueOpt) (daysCount : Nat) : JStr :=
  if overdueOption = some OverdueOpt.overdueOnly then "overdue".toList
  else if startDate = some ("today".toList) then
    if overdueOption = some OverdueOpt.excludeOverdue then "today".toList
    else "(today | overdue)".toList
  else
    match startDate with
    | some d =>
      let endDate := addDays (parseISODate d) daysCount
      let endDateStr := formatISODate endDate
      ("(due after: ".toList) ++ d ++ (" | due: ".toList) ++ d ++
        (") & due before: ".toList) ++ endDateStr
    | none => []

/-- The full query built by `findTasksByDate.execute`: the date fragment,
then the parenthesised labels filter (when non-empty), then the
responsible-user fragment for the `unassignedOrMe` (default) and `assigned`
modes, each joined with " & " when the running query is non-empty. -/
def findTasksByDateBuildQuery (startDate : Option JStr)
    (overdueOption : Option OverdueOpt) (daysCount : Nat)
    (labels : List JStr) (labelsOperator : LabelsOp)
    (responsibleUserFiltering : Option RUFMode) : JStr :=
  let query := findTasksByDateDateFragment startDate overdueOption daysCount
  let labelsFilter := generateLabelsFilter labels labelsOperator
  let query :=
    if labelsFilter.length > 0 then
      (if query.length > 0 then query ++ (" & ".toList) else query) ++
        ('(' :: labelsFilter ++ [')'])
    else query
  let filteringMode := responsibleUserFiltering.getD RUFMode.unassignedOrMe
  if filteringMode = RUFMode.unassignedOrMe then
    (if query.length > 0 then query ++ (" & ".toList) else query) ++
      ("!assigned to: others".toList)
  else if filteringMode = RUFMode.assigned then
    (if query.length > 0 then query ++ (" & ".toList) else query) ++
      ("assigned to: others".toList)
  else query

/-- A text content item of a tool envelope (the `type` discriminant is always
the literal `text`, so only the payload is modelled). -/
structure TextContent where
  text : JStr
deriving DecidableEq, Repr

/-- The output envelope of the two OpenAI-contract tools (`search`, `fetch`):
a list of text content items and an optional `isError` flag. -/
structure ToolEnvelope where
  content : List TextContent
  isError : Option Bool
deriving DecidableEq, Repr

/-- Modelled from the spec: `getErrorOutput` lives in `mcp-helpers.ts`, which
is not among the provided sources.  Per spec §7 the two OpenAI-contract tools
convert a caught error into an `isError: true` envelope whose single text item
carries the plain-text message (the search/fetch tests pin this shape). -/
def getErrorOutput (message : JStr) : ToolEnvelope :=
  { content := [{ text := message }], isError := some true }

/-- Split a string at its first ':' — the part before it, and the remainder
after it (`none` when the string has no colon at all). -/
def splitAtFirstColon : JStr → JStr × Option JStr
  | [] => ([], none)
  | c :: t =>
    if c = ':' then ([], some t)
    else
      let (b, r) := splitAtFirstColon t
      (c :: b, r)

/-- JS `id.split(':', 2)` destructured as `[type, objectId]`: `type` is the
text before the first colon; `objectId` is the segment between the first and
second colons (`undefined` when the string has no colon). -/
def jsSplitColon2 (s : JStr) : JStr × Option JStr :=
  match splitAtFirstColon s with
  | (before, none) => (before, none)
  | (before, some rest) => (before, some (splitAtFirstColon rest).1)

/-- The exact message of the invalid-composite-ID error thrown by
`fetch.execute`. -/
def invalidIdMessage : JStr :=
  ("Invalid ID format. Expected \"task:\x7bid\x7d\" or \"project:\x7bid\x7d\". " ++
    "Example: \"task:8485093748\" or \"project:6cfCcrrCFg2xP94Q\"").toList

/-- The metadata object of a fetch result (task-shaped or project-shaped). -/
inductive FetchMeta where
  | taskMeta (priority : Nat) (projectId : JStr) (sectionId parentId : Option JStr)
      (recurring : Option JStr) (duration : Option JStr)
      (responsibleUid assignedByUid : Option JStr)
  | projectMeta (color : JStr) (isFavorite isShared : Bool) (parentId : Option JStr)
      (inboxProject : Bool) (viewStyle : JStr)
deriving DecidableEq, Repr

/-- The `FetchResult` record built by `fetch.execute` before JSON
serialization. -/
structure FetchResult where
  id : JStr
  title : JStr
  text : JStr
  url : JStr
  metadata : FetchMeta
deriving DecidableEq, Repr

/-- External collaborators of `fetch.execute`: the two client calls (a
rejection is surfaced by its `Error` message), `buildTodoistUrl` (defined in
the part of `tool-helpers.ts` not among the provided sources) and
`JSON.stringify` (a runtime facility), all passed in as functions. -/
structure FetchEnv where
  getTask : JStr → Except JStr RawTask
  getProject : JStr → Except JStr RawProject
  buildTodoistUrl : JStr → JStr → JStr
  stringify : FetchResult → JStr

/-- The text block built by `fetch.execute` for a task: the content, then
`Description:`, `Due:` and `Labels:` sections, each appended only when
present. -/
def fetchTaskText (mt : MappedTask) : JStr :=
  let textParts := [mt.content]
  let textParts :=
    if !mt.description.isEmpty then
      textParts ++ [("\n\nDescription: ".toList) ++ mt.description]
    else textParts
  let textParts :=
    match mt.dueDate with
    | some d => if !d.isEmpty then textParts ++ [("\nDue: ".toList) ++ d] else textParts
    | none => textParts
  let textParts :=
    if mt.labels.length > 0 then
      textParts ++ [("\nLabels: ".toList) ++ List.intercalate (", ".toList) mt.labels]
    else textParts
  textParts.flatten

/-- The text block built by `fetch.execute` for a project: the name, then
`Shared project` and `Favorite: Yes`, each appended only when the flag is
set. -/
def fetchProjectText (mp : MappedProject) : JStr :=
  let textParts := [mp.name]
  let textParts :=
    if mp.isShared then textParts ++ ["\n\nShared project".toList] else textParts
  let textParts :=
    if mp.isFavorite then textParts ++ ["\nFavorite: Yes".toList] else textParts
  textParts.flatten

/-- `fetch.execute` from `tools/fetch.ts`: parses the composite ID with
`split(':', 2)`, rejects malformed IDs with the invalid-ID error, fetches and
maps the task or project, and serializes the result into a single text
content item; every thrown error is caught and converted by
`getErrorOutput`. -/
def fetchExecute (env : FetchEnv) (id : JStr) : ToolEnvelope :=
  let (ty, objectId) := jsSplitColon2 id
  if strTruthy objectId = false ∨ (ty ≠ ("task".toList) ∧ ty ≠ ("project".toList)) then
    getErrorOutput invalidIdMessage
  else if ty = ("task".toList) then
    match env.getTask (objectId.getD []) with
    | Except.error m => getErrorOutput m
    | Except.ok task =>
      let mt := mapTask task
      let result : FetchResult :=
        { id := ("task:".toList) ++ mt.id
          title := mt.content
          text := fetchTaskText mt
          url := env.buildTodoistUrl ("task".toList) mt.id
          metadata := FetchMeta.taskMeta mt.priority mt.projectId mt.sectionId mt.parentId
            mt.recurring mt.duration mt.responsibleUid mt.assignedByUid }
      { content := [{ text := env.stringify result }], isError := none }
  else
    match env.getProject (objectId.getD []) with
    | Except.error m => getErrorOutput m
    | Except.ok project =>
      let mp := mapProject project
      let result : FetchResult :=
        { id := ("project:".toList) ++ mp.id
          title := mp.name
          text := fetchProjectText mp
          url := env.buildTodoistUrl ("project".toList) mp.id
          metadata := FetchMeta.projectMeta mp.color mp.isFavorite mp.isShared mp.parentId
            mp.inboxProject mp.viewStyle }
      { content := [{ text := env.stringify result }], isError := none }

/-- One entry of the `results` array of the search tool. -/
structure SearchResult where
  id : JStr
  title : JStr
  url : JStr
deriving DecidableEq, Repr

/-- The `results` array computed by `search.execute` from the upstream
responses: task results are pushed first (composite id `task:<id>`), then the
projects whose name contains the query case-insensitively (composite id
`project:<id>`), both loops preserving upstream order. -/
def searchResults (buildUrl : JStr → JStr → JStr) (query : JStr)
    (tasks : List MappedTask) (projects : List RawProject) : List SearchResult :=
  let searchLower := jsToLower query
  let matchingProjects :=
    projects.filter (fun project => hasSub (jsToLower project.name) searchLower)
  let results : List SearchResult := []
  let results := tasks.foldl
    (fun acc task =>
      acc ++ [{ id := ("task:".toList) ++ task.id
                title := task.content
                url := buildUrl ("task".toList) task.id }])
    results
  let results := matchingProjects.foldl
    (fun acc project =>
      acc ++ [{ id := ("project:".toList) ++ project.id
                title := project.name
                url := buildUrl ("project".toList) project.id }])
    results
  results

/-- External collaborators of `search.execute`: the upstream outcome of the
search-filter call (fed through `getTasksByFilter`), the outcome of
`client.getProjects` (a rejection surfaced by its `Error` message),
`buildTodoistUrl` and `JSON.stringify`. -/
structure SearchEnv where
  tasksOutcome : Except UpstreamError (List RawTask × Option JStr)
  projectsOutcome : Except JStr (List RawProject)
  buildUrl : JStr → JStr → JStr
  stringifyResults : List SearchResult → JStr

/-- The message the catch block of the OpenAI-contract tools extracts from a
thrown value: the message of an `Error`, else `An unknown error occurred`
(a re-thrown value that failed the structured-error parse is modelled as a
non-`Error`). -/
def jsErrorMessage : ThrownError → JStr
  | ThrownError.newError m => m
  | ThrownError.rethrown _ => ("An unknown error occurred".toList)

/-- `search.execute` from the search tool: runs the search-filter query
`search: <query>` (through `getTasksByFilter`) and `getProjects` (a failure of
either aborts the whole call and is converted by `getErrorOutput`), then
serializes the combined `results` array into a single text content item. -/
def searchExecute (env : SearchEnv) (query : JStr) : ToolEnvelope :=
  match getTasksByFilter env.tasksOutcome (("search: ".toList) ++ query) with
  | Except.error e => getErrorOutput (jsErrorMessage e)
  | Except.ok (tasks, _) =>
    match env.projectsOutcome with
    | Except.error m => getErrorOutput m
    | Except.ok projects =>
      let results := searchResults env.buildUrl query tasks projects
      { content := [{ text := env.stringifyResults results }], isError := none }

/-- The authenticated Todoist user (`client.getUser()`), restricted to the
`id` field read by find-tasks. -/
structure TodoistUser where
  id : JStr
deriving DecidableEq, Repr

/-- The `GetTasksArgs` parameter object passed to `client.getTasks` by the
container branch of find-tasks. -/
structure GetTasksParams where
  limit : Nat
  cursor : Option JStr
  projectId : Option JStr
  sectionId : Option JStr
  parentId : Option JStr
deriving DecidableEq, Repr

/-- One upstream API call issued during a find-tasks run, in issue order. -/
inductive ApiCall where
  | getUser
  | userLookup (responsibleUser : JStr)
  | getTasksCall (params : GetTasksParams)
  | getTasksByFilterCall (query : JStr) (limit : Nat) (cursor : Option JStr)
deriving DecidableEq, Repr

/-- The arguments of the find-tasks tool after zod validation (`limit` and
`labelsOperator` carry their zod defaults; everything else is optional). -/
structure FindTasksArgs where
  searchText : Option JStr
  projectId : Option JStr
  sectionId : Option JStr
  parentId : Option JStr
  responsibleUser : Option JStr
  responsibleUserFiltering : Option RUFMode
  limit : Nat
  cursor : Option JStr
  labels : Option (List JStr)
  labelsOperator : LabelsOp
deriving DecidableEq, Repr

/-- External collaborators of `findTasks.execute`: the authenticated user,
the collaborator lookup of `utils/user-resolver.ts` (not among the provided
sources; it resolves a name/email/ID to a user id and email, `none` when no
match), and the outcomes of the two task-listing endpoints. -/
structure FindTasksEnv where
  user : TodoistUser
  resolveUserNameToId : JStr → Option (JStr × JStr)
  getTasks : GetTasksParams → Except JStr (List RawTask × Option JStr)
  getTasksByFilterOutcome :
    JStr → Nat → Option JStr → Except UpstreamError (List RawTask × Option JStr)

/-- The structured content of a find-tasks response (the text summary built
by `generateTextContent`/`getToolOutput` is presentation-only and is not
modelled; no claim concerns it). -/
structure FindTasksOutput where
  tasks : List MappedTask
  nextCursor : Option JStr
  totalCount : Nat
  hasMore : Bool
deriving DecidableEq, Repr

/-- The exact message of the missing-filter validation error of
`findTasks.execute`. -/
def missingFilterMessage : JStr :=
  ("At least one filter must be provided: searchText, projectId, sectionId, " ++
    "parentId, responsibleUser, or labels").toList

/-- The exact message of the unresolved responsible-user error of
`resolveResponsibleUser` (`filter-helpers.ts`). -/
def userNotFoundMessage (responsibleUser : JStr) : JStr :=
  ("Could not find user: \"".toList) ++ responsibleUser ++
    ("\". Make sure the user is a collaborator on a shared project.".toList)

/-- The `hasLabels` guard of `findTasks.execute`:
`labels && labels.length > 0`. -/
def hasLabelsArg (labels : Option (List JStr)) : Bool :=
  match labels with
  | some ls => decide (ls.length > 0)
  | none => false

/-- `findTasks.execute` from `tools/find-tasks.ts`, as a run: the first
component lists the upstream API calls issued, in order, up to the point the
run returns or throws; the second is the thrown error or the structured
output.  The body follows the source top to bottom: `getUser` first, then the
missing-filter validation, then `resolveResponsibleUser`, then the container
branch (`getTasks` plus in-memory search-text, responsible-user and label
filtering), then the assignee-only branch (`assigned to: <email>` filter
call), then the generic filter-query branch (`search:` text and labels filter
through `getTasksByFilter`, responsible-user filtering client-side). -/
def findTasksRun (env : FindTasksEnv) (args : FindTasksArgs) :
    List ApiCall × Except ThrownError FindTasksOutput :=
  let calls0 : List ApiCall := [ApiCall.getUser]
  let todoistUser := env.user
  let hasLabels : Bool := hasLabelsArg args.labels
  if strTruthy args.searchText = false ∧ strTruthy args.projectId = false ∧
      strTruthy args.sectionId = false ∧ strTruthy args.parentId = false ∧
      strTruthy args.responsibleUser = false ∧ hasLabels = false then
    (calls0, Except.error (ThrownError.newError missingFilterMessage))
  else
    -- resolveResponsibleUser: no lookup when responsibleUser is falsy
    let lookupCalls : List ApiCall :=
      if strTruthy args.responsibleUser then
        [ApiCall.userLookup (args.responsibleUser.getD [])]
      else []
    let calls1 := calls0 ++ lookupCalls
    let resolved : Option (JStr × JStr) :=
      if strTruthy args.responsibleUser then
        env.resolveUserNameToId (args.responsibleUser.getD [])
      else none
    if strTruthy args.responsibleUser ∧ resolved = none then
      (calls1,
        Except.error (ThrownError.newError (userNotFoundMessage (args.responsibleUser.getD []))))
    else
      let resolvedAssigneeId : Option JStr := resolved.map Prod.fst
      let assigneeEmail : Option JStr := resolved.map Prod.snd
      if strTruthy args.projectId ∨ strTruthy args.sectionId ∨ strTruthy args.parentId then
        -- container branch
        let taskParams : GetTasksParams :=
          { limit := args.limit
            cursor := args.cursor
            projectId := if strTruthy args.projectId then args.projectId else none
            sectionId := if strTruthy args.sectionId then args.sectionId else none
            parentId := if strTruthy args.parentId then args.parentId else none }
        let calls2 := calls1 ++ [ApiCall.getTasksCall taskParams]
        match env.getTasks taskParams with
        | Except.error m => (calls2, Except.error (ThrownError.newError m))
        | Except.ok (results, nextCursor) =>
          let mappedTasks := results.map mapTask
          let st := args.searchText.getD []
          let filteredTasks :=
            if strTruthy args.searchText then
              mappedTasks.filter (fun task =>
                hasSub (jsToLower task.content) (jsToLower st) ||
                  hasSub (jsToLower task.description) (jsToLower st))
            else mappedTasks
          let filteredTasks := filterTasksByResponsibleUser MappedTask.responsibleUid
            filteredTasks resolvedAssigneeId todoistUser.id args.responsibleUserFiltering
          let filteredTasks :=
            match args.labels with
            | some ls =>
              if ls.length > 0 then
                if args.labelsOperator = LabelsOp.and then
                  filteredTasks.filter (fun task => ls.all (fun l => task.labels.contains l))
                else
                  filteredTasks.filter (fun task => ls.any (fun l => task.labels.contains l))
              else filteredTasks
            | none => filteredTasks
          (calls2, Except.ok
            { tasks := filteredTasks
              nextCursor := nextCursor
              totalCount := filteredTasks.length
              hasMore := strTruthy nextCursor })
      else if strTruthy resolvedAssigneeId ∧ strTruthy args.searchText = false ∧
          hasLabels = false then
        -- assignee-only branch: direct `assigned to:` filter call
        let query := ("assigned to: ".toList) ++ assigneeEmail.getD []
        let calls2 := calls1 ++ [ApiCall.getTasksByFilterCall query args.limit args.cursor]
        match env.getTasksByFilterOutcome query args.limit args.cursor with
        | Except.error e => (calls2, Except.error (ThrownError.rethrown e))
        | Except.ok (results, nextCursor) =>
          let mappedTasks := results.map mapTask
          (calls2, Except.ok
            { tasks := mappedTasks
              nextCursor := nextCursor
              totalCount := mappedTasks.length
              hasMore := strTruthy nextCursor })
      else
        -- filter-query branch: search text and/or labels
        let query : JStr :=
          if strTruthy args.searchText then ("search: ".toList) ++ args.searchText.getD []
          else []
        let labelsFilter := generateLabelsFilter (args.labels.getD []) args.labelsOperator
        let query := appendToQuery query labelsFilter
        let calls2 := calls1 ++ [ApiCall.getTasksByFilterCall query args.limit args.cursor]
        match getTasksByFilter (env.getTasksByFilterOutcome query args.limit args.cursor) query with
        | Except.error e => (calls2, Except.error e)
        | Except.ok (tasks, nextCursor) =>
          let tasks := filterTasksByResponsibleUser MappedTask.responsibleUid
            tasks resolvedAssigneeId todoistUser.id args.responsibleUserFiltering
          (calls2, Except.ok
            { tasks := tasks
              nextCursor := nextCursor
              totalCount := tasks.length
              hasMore := strTruthy nextCursor })

mutual

/-- A JavaScript value as seen by `removeNullFields` (`sanitize-data.ts`):
null, undefined, scalars, arrays and plain objects (fields in insertion
order). -/
inductive JValue where
  | jnull
  | undef
  | bool (b : Bool)
  | num (n : Int)
  | str (s : JStr)
  | arr (items : JArray)
  | obj (fields : JObject)

/-- The elements of a JS array, in order. -/
inductive JArray where
  | nil
  | cons (head : JValue) (tail : JArray)

/-- The fields of a JS object, in insertion order. -/
inductive JObject where
  | nil
  | cons (key : JStr) (value : JValue) (tail : JObject)

end

/-- Is the value exactly `null`? -/
def JValue.isNull : JValue → Bool
  | JValue.jnull => true
  | _ => false

/-- Is the value an empty array (`Array.isArray(v) && v.length === 0`)? -/
def JValue.isEmptyArr : JValue → Bool
  | JValue.arr JArray.nil => true
  | _ => false

/-- Is the value an empty object
(`v !== null && typeof v === 'object' && !Array.isArray(v) &&
Object.keys(v).length === 0`)? -/
def JValue.isEmptyObj : JValue → Bool
  | JValue.obj JObject.nil => true
  | _ => false

mutual

/-- `removeNullFields` from `sanitize-data.ts`: null/undefined are returned
unchanged; arrays are mapped elementwise; objects drop fields whose value is
null and fields whose sanitized value is an empty array or an empty object,
keeping all other fields with their sanitized values; scalars are returned
unchanged. -/
def removeNullFields : JValue → JValue
  | JValue.jnull => JValue.jnull
  | JValue.undef => JValue.undef
  | JValue.bool b => JValue.bool b
  | JValue.num n => JValue.num n
  | JValue.str s => JValue.str s
  | JValue.arr items => JValue.arr (removeNullFieldsArr items)
  | JValue.obj fields => JValue.obj (removeNullFieldsObj fields)

/-- The arraywise part of `removeNullFields`: `obj.map(removeNullFields)`. -/
def removeNullFieldsArr : JArray → JArray
  | JArray.nil => JArray.nil
  | JArray.cons h t => JArray.cons (removeNullFields h) (removeNullFieldsArr t)

/-- The objectwise part of `removeNullFields`: the `Object.entries` loop. -/
def removeNullFieldsObj : JObject → JObject
  | JObject.nil => JObject.nil
  | JObject.cons k v t =>
    if v.isNull then removeNullFieldsObj t
    else
      let cleanedValue := removeNullFields v
      if cleanedValue.isEmptyArr then removeNullFieldsObj t
      else if cleanedValue.isEmptyObj then removeNullFieldsObj t
      else JObject.cons k cleanedValue (removeNullFieldsObj t)

end

mutual

/-- The sanitation invariant on values: at every nesting depth, no object
field holds null, an empty object, or an empty array. -/
def goodVal : JValue → Bool
  | JValue.arr items => goodArr items
  | JValue.obj fields => goodObj fields
  | _ => true

/-- The sanitation invariant, arraywise. -/
def goodArr : JArray → Bool
  | JArray.nil => true
  | JArray.cons h t => goodVal h && goodArr t

/-- The sanitation invariant, objectwise. -/
def goodObj : JObject → Bool
  | JObject.nil => true
  | JObject.cons _ v t =>
    !v.isNull && !v.isEmptyArr && !v.isEmptyObj && goodVal v && goodObj t

end

/-- The elements of a `JArray` as a Lean list (used to state order
preservation). -/
def JArray.toList : JArray → List JValue
  | JArray.nil => []
  | JArray.cons h t => h :: JArray.toList t


theorem foldl_push_eq_map {α β : Type} (f : α → β) (l : List α) (init : List β) :
    l.foldl (fun acc x => acc ++ [f x]) init = init ++ l.map f := by
  induction l generalizing init with
  | nil => simp
  | cons h t ih => simp [List.foldl_cons, ih]

/-- C9: appendToQuery returns q when c is empty, c when q is empty, and
q & c otherwise; the empty string is a two-sided identity and the result
never gains a dangling leading or trailing ampersand. -/
theorem appendToQuery_spec (q c : JStr) :
    appendToQuery q [] = q ∧
    appendToQuery [] c = c ∧
    (c = [] → appendToQuery q c = q) ∧
    (q = [] → appendToQuery q c = c) ∧
    (q ≠ [] → c ≠ [] → appendToQuery q c = q ++ (" & ".toList) ++ c) ∧
    (ampStart q = false → ampStart c = false → ampStart (appendToQuery q c) = false) ∧
    (ampEnd q = false → ampEnd c = false → ampEnd (appendToQuery q c) = false) := by
  refine ⟨?_, ?_, ?_, ?_, ?_, ?_, ?_⟩
  · simp [appendToQuery]
  · by_cases hc : c = []
    · simp [appendToQuery, hc]
    · simp [appendToQuery, List.length_eq_zero, hc]
  · intro hc; simp [appendToQuery, hc]
  · intro hq
    by_cases hc : c = []
    · simp [appendToQuery, hq, hc]
    · simp [appendToQuery, hq, List.length_eq_zero, hc]
  · intro hq hc
    simp [appendToQuery, List.length_eq_zero, hq, hc]
  · intro hq hc
    by_cases hce : c = []
    · simpa [appendToQuery, hce] using hq
    · by_cases hqe : q = []
      · simpa [appendToQuery, List.length_eq_zero, hce, hqe] using hc
      · match q, hqe with
        | qh :: qt, _ =>
          simpa [appendToQuery, List.length_eq_zero, hce, ampStart] using hq
  · intro hq hc
    by_cases hce : c = []
    · simpa [appendToQuery, hce] using hq
    · by_cases hqe : q = []
      · simpa [appendToQuery, List.length_eq_zero, hce, hqe] using hc
      · have happ : appendToQuery q c = q ++ (" & ".toList) ++ c := by
          simp [appendToQuery, List.length_eq_zero, hce, hqe]
        rw [happ]
        unfold ampEnd
        rw [List.getLast?_append_of_ne_nil _ hce]
        unfold ampEnd at hc
        exact hc

/-- C9 witness: the appendToQuery facts at concrete inputs. -/
theorem appendToQuery_spec_witness :
    appendToQuery ("search: test".toList) ("(@work)".toList) =
      ("search: test & (@work)".toList) ∧
    ampStart (appendToQuery ("search: test".toList) ("(@work)".toList)) = false ∧
    ampEnd (appendToQuery ("search: test".toList) ("(@work)".toList)) = false := by
  have h := appendToQuery_spec ("search: test".toList) ("(@work)".toList)
  refine ⟨?_, ?_, ?_⟩
  · have := h.2.2.2.2.1 (by decide) (by decide)
    rw [this]; decide
  · exact h.2.2.2.2.2.1 (by decide) (by decide)
  · exact h.2.2.2.2.2.2 (by decide) (by decide)

/-- C8: the label expression builder yields the empty string for no labels,
a single parenthesized @-label for one label (stripping any leading @ before
re-adding it), and one parenthesized fragment joining @-labels with the
double-spaced operator for several labels. -/
theorem generateLabelsFilter_spec :
    (∀ op, generateLabelsFilter [] op = []) ∧
    (∀ x op, generateLabelsFilter [x] op = ('(' :: '@' :: stripLeadingAt x) ++ [')']) ∧
    (∀ x, stripLeadingAt ('@' :: x) = x) ∧
    (∀ c t, c ≠ '@' → stripLeadingAt (c :: t) = c :: t) ∧
    (∀ x y rest op, generateLabelsFilter (x :: y :: rest) op =
      ('(' :: List.intercalate
        (if op = LabelsOp.and then "  &  ".toList else "  |  ".toList)
        ((x :: y :: rest).map (fun l => '@' :: stripLeadingAt l))) ++ [')']) ∧
    generateLabelsFilter [("work".toList)] LabelsOp.or = ("(@work)".toList) ∧
    generateLabelsFilter [("work".toList), ("urgent".toList)] LabelsOp.and =
      ("(@work  &  @urgent)".toList) ∧
    generateLabelsFilter [("personal".toList), ("shopping".toList)] LabelsOp.or =
      ("(@personal  |  @shopping)".toList) ∧
    generateLabelsFilter [("@work".toList), ("personal".toList)] LabelsOp.or =
      ("(@work  |  @personal)".toList) := by
  refine ⟨?_, ?_, ?_, ?_, ?_, by decide, by decide, by decide, by decide⟩
  · intro op; simp [generateLabelsFilter]
  · intro x op; cases op <;> simp [generateLabelsFilter, List.intercalate]
  · intro x; simp [stripLeadingAt]
  · intro c t hc; simp [stripLeadingAt, hc]
  · intro x y rest op; simp [generateLabelsFilter]

/-- C8 witness: the @-stripping fact at a concrete label. -/
theorem generateLabelsFilter_spec_witness :
    ('w' ≠ '@') ∧ stripLeadingAt ("work".toList) = ("work".toList) :=
  ⟨by decide, generateLabelsFilter_spec.2.2.2.1 'w' ("ork".toList) (by decide)⟩

/-- A minimal mapped task used by concrete witnesses. -/
def demoMappedTask (id : JStr) (responsibleUid : Option JStr) : MappedTask :=
  { id := id, content := id, description := [], dueDate := none, recurring := none,
    priority := 1, projectId := [], sectionId := none, parentId := none, labels := [],
    duration := none, responsibleUid := responsibleUid, assignedByUid := none }

/-- C4: with a resolved assignee id the filter keeps exactly the tasks
assigned to that id, in order, regardless of mode; with none, the default
and `unassignedOrMe` modes keep exactly the unassigned-or-mine tasks, while
`assigned` and `all` pass the list through unchanged. -/
theorem filterTasksByResponsibleUser_spec (tasks : List MappedTask) (aid cuid : JStr)
    (mode mode2 : Option RUFMode) (haid : aid ≠ []) :
    (filterTasksByResponsibleUser MappedTask.responsibleUid tasks (some aid) cuid mode =
      filterTasksByResponsibleUser MappedTask.responsibleUid tasks (some aid) cuid mode2) ∧
    (filterTasksByResponsibleUser MappedTask.responsibleUid tasks (some aid) cuid mode).Sublist
      tasks ∧
    (∀ t, t ∈ filterTasksByResponsibleUser MappedTask.responsibleUid tasks (some aid) cuid mode ↔
      t ∈ tasks ∧ t.responsibleUid = some aid) ∧
    (filterTasksByResponsibleUser MappedTask.responsibleUid tasks none cuid none =
      filterTasksByResponsibleUser MappedTask.responsibleUid tasks none cuid
        (some RUFMode.unassignedOrMe)) ∧
    (∀ t, t ∈ filterTasksByResponsibleUser MappedTask.responsibleUid tasks none cuid
        (some RUFMode.unassignedOrMe) ↔
      t ∈ tasks ∧ (strTruthy t.responsibleUid = false ∨ t.responsibleUid = some cuid)) ∧
    (filterTasksByResponsibleUser MappedTask.responsibleUid tasks none cuid
      (some RUFMode.unassignedOrMe)).Sublist tasks ∧
    (filterTasksByResponsibleUser MappedTask.responsibleUid tasks none cuid
      (some RUFMode.assigned) = tasks) ∧
    (filterTasksByResponsibleUser MappedTask.responsibleUid tasks none cuid
      (some RUFMode.all) = tasks) := by
  have htr : strTruthy (some aid) = true := by
    simp [strTruthy, List.isEmpty_iff, haid]
  refine ⟨?_, ?_, ?_, ?_, ?_, ?_, ?_, ?_⟩
  · simp [filterTasksByResponsibleUser, htr]
  · simp only [filterTasksByResponsibleUser, htr, if_true]
    exact List.filter_sublist tasks
  · intro t
    simp [filterTasksByResponsibleUser, htr, List.mem_filter]
  · simp [filterTasksByResponsibleUser]
  · intro t
    simp [filterTasksByResponsibleUser, strTruthy, List.mem_filter]
  · simp only [filterTasksByResponsibleUser, strTruthy, Bool.false_eq_true, if_false]
    exact List.filter_sublist tasks
  · simp [filterTasksByResponsibleUser, strTruthy]
  · simp [filterTasksByResponsibleUser, strTruthy]

/-- C4 witness: the filter facts at a concrete three-task list (assigned to self,
assigned to another user, unassigned). -/
theorem filterTasksByResponsibleUser_spec_witness :
    ("other".toList : JStr) ≠ [] ∧
    (∀ t, t ∈ filterTasksByResponsibleUser MappedTask.responsibleUid
        [demoMappedTask ("t1".toList) (some ("me".toList)),
         demoMappedTask ("t2".toList) (some ("other".toList)),
         demoMappedTask ("t3".toList) none]
        (some ("other".toList)) ("me".toList) none ↔
      t ∈ [demoMappedTask ("t1".toList) (some ("me".toList)),
           demoMappedTask ("t2".toList) (some ("other".toList)),
           demoMappedTask ("t3".toList) none] ∧
        t.responsibleUid = some ("other".toList)) :=
  ⟨by decide,
    (filterTasksByResponsibleUser_spec
      [demoMappedTask ("t1".toList) (some ("me".toList)),
       demoMappedTask ("t2".toList) (some ("other".toList)),
       demoMappedTask ("t3".toList) none]
      ("other".toList) ("me".toList) none none (by decide)).2.2.1⟩

/-- C6: the error translation of getTasksByFilter — the invalid-search-query
tag becomes `Invalid filter query: <query>`, any other structured error
becomes `<message> (tag: <tag>, code: <code>)`, and an unrecognized error
shape is re-thrown unchanged. -/
theorem getTasksByFilter_error_spec (query msg tag : JStr) (status code : Int) (raw : Nat) :
    (getTasksByFilter
        (Except.error (UpstreamError.structured
          { httpStatusCode := status
            responseData :=
              { error := msg, errorCode := code, errorTag := ("INVALID_SEARCH_QUERY".toList) } }))
        query =
      Except.error (ThrownError.newError (("Invalid filter query: ".toList) ++ query))) ∧
    (tag ≠ ("INVALID_SEARCH_QUERY".toList) →
      getTasksByFilter
          (Except.error (UpstreamError.structured
            { httpStatusCode := status
              responseData := { error := msg, errorCode := code, errorTag := tag } }))
          query =
        Except.error (ThrownError.newError
          (msg ++ (" (tag: ".toList) ++ tag ++ (", code: ".toList) ++ intToChars code ++
            (")".toList)))) ∧
    (getTasksByFilter (Except.error (UpstreamError.unrecognized raw)) query =
      Except.error (ThrownError.rethrown (UpstreamError.unrecognized raw))) := by
  refine ⟨?_, ?_, ?_⟩
  · simp [getTasksByFilter]
  · intro htag
    simp [getTasksByFilter, htag]
    intro h
    exact absurd h htag
  · simp [getTasksByFilter]

/-- C6 witness: the other-tag translation at concrete inputs. -/
theorem getTasksByFilter_error_spec_witness :
    ("SOME_OTHER_TAG".toList : JStr) ≠ ("INVALID_SEARCH_QUERY".toList) ∧
    getTasksByFilter
        (Except.error (UpstreamError.structured
          { httpStatusCode := 400
            responseData :=
              { error := ("Bad request".toList), errorCode := 42,
                errorTag := ("SOME_OTHER_TAG".toList) } }))
        ("today".toList) =
      Except.error (ThrownError.newError ("Bad request (tag: SOME_OTHER_TAG, code: 42)".toList)) := by
  refine ⟨by decide, ?_⟩
  have h := (getTasksByFilter_error_spec ("today".toList) ("Bad request".toList)
    ("SOME_OTHER_TAG".toList) 400 42 0).2.1 (by decide)
  have hm : (("Bad request".toList : JStr) ++ (" (tag: ".toList) ++ ("SOME_OTHER_TAG".toList) ++
      (", code: ".toList) ++ intToChars 42 ++ (")".toList)) =
      ("Bad request (tag: SOME_OTHER_TAG, code: 42)".toList) := by decide
  rw [h, hm]

/-- A raw task with the highest API priority (4). -/
def demoRawTaskP4 : RawTask :=
  { id := ("1".toList), content := ("t".toList), description := [], due := none,
    priority := 4, projectId := ("p".toList), sectionId := none, parentId := none,
    labels := [], duration := none, responsibleUid := none, assignedByUid := none }

/-- C7 counterexample: mapTask does not invert the API priority — a raw task
with API priority 4 (highest) maps to priority 4, not to the claimed
user-facing 1, even though the conversion helper maps API 4 to p1. -/
theorem mapTask_priority_counterexample :
    (mapTask demoRawTaskP4).priority = 4 ∧
    ¬ (mapTask demoRawTaskP4).priority = 1 ∧
    convertNumberToPriority 4 = some Priority.p1 := by
  refine ⟨by decide, by decide, by decide⟩

/-- C7 amended: the mapped task's priority is the raw API priority copied
through unchanged (API convention, 4 = highest), so it stays present and in
range 1–4 exactly when the API value is; the inversion helpers exist but are
not applied by mapTask. -/
theorem mapTask_priority_amended (task : RawTask) (h1 : 1 ≤ task.priority)
    (h2 : task.priority ≤ 4) :
    (mapTask task).priority = task.priority ∧
    1 ≤ (mapTask task).priority ∧ (mapTask task).priority ≤ 4 := by
  refine ⟨rfl, ?_, ?_⟩
  · simpa [mapTask] using h1
  · simpa [mapTask] using h2

/-- C7 witness: the amended priority facts at the concrete priority-4 task. -/
theorem mapTask_priority_amended_witness :
    (1 ≤ demoRawTaskP4.priority ∧ demoRawTaskP4.priority ≤ 4) ∧
    (mapTask demoRawTaskP4).priority = demoRawTaskP4.priority :=
  ⟨⟨by decide, by decide⟩, (mapTask_priority_amended demoRawTaskP4 (by decide) (by decide)).1⟩


theorem jsSplitColon2_fst (s : JStr) : (jsSplitColon2 s).1 = (splitAtFirstColon s).1 := by
  unfold jsSplitColon2
  rcases hs : splitAtFirstColon s with ⟨b, r⟩
  cases r <;> simp

/-- The claim's well-formedness predicate on a composite ID: split at the
first colon, the part before it must be exactly `task` or `project`, and the
remainder after it must exist and be non-empty. -/
def claimValidId (id : JStr) : Bool :=
  ((splitAtFirstColon id).1 = ("task".toList) ∨ (splitAtFirstColon id).1 = ("project".toList)) &&
    (match (splitAtFirstColon id).2 with
     | some rest => !rest.isEmpty
     | none => false)

/-- C3: whenever the composite ID fails the claim's well-formedness check
(prefix not exactly `task`/`project`, or empty/absent remainder after the
first colon), fetch returns — without throwing — an `isError: true` envelope
whose single text content item contains "Invalid ID format". -/
theorem fetchExecute_invalidId (env : FetchEnv) (id : JStr)
    (h : claimValidId id = false) :
    fetchExecute env id = getErrorOutput invalidIdMessage ∧
    (fetchExecute env id).isError = some true ∧
    (fetchExecute env id).content.length = 1 ∧
    ∀ item ∈ (fetchExecute env id).content,
      hasSub item.text ("Invalid ID format".toList) = true := by
  have hguard : strTruthy (jsSplitColon2 id).2 = false ∨
      ((jsSplitColon2 id).1 ≠ ("task".toList) ∧ (jsSplitColon2 id).1 ≠ ("project".toList)) := by
    unfold claimValidId at h
    rw [Bool.and_eq_false_iff] at h
    rcases h with h | h
    · right
      rw [jsSplitColon2_fst]
      rw [decide_eq_false_iff_not] at h
      push_neg at h
      exact h
    · left
      unfold jsSplitColon2
      rcases hs : splitAtFirstColon id with ⟨b, r⟩
      rw [hs] at h
      cases r with
      | none => simp [strTruthy]
      | some rest =>
        simp only at h
        have : rest = [] := by
          cases rest with
          | nil => rfl
          | cons c t => simp at h
        subst this
        simp [strTruthy, splitAtFirstColon]
  have hmain : fetchExecute env id = getErrorOutput invalidIdMessage := by
    unfold fetchExecute
    rcases hj : jsSplitColon2 id with ⟨ty, objectId⟩
    rw [hj] at hguard
    simp only
    rw [if_pos]
    exact hguard
  refine ⟨hmain, ?_, ?_, ?_⟩
  · rw [hmain]; rfl
  · rw [hmain]; rfl
  · rw [hmain]
    intro item hitem
    simp only [getErrorOutput, List.mem_singleton] at hitem
    subst hitem
    decide

/-- A concrete fetch environment whose client calls always fail. -/
def demoFetchEnv : FetchEnv :=
  { getTask := fun _ => Except.error ("Task not found".toList)
    getProject := fun _ => Except.error ("Project not found".toList)
    buildTodoistUrl := fun ty oid => ("https://app.todoist.com/app/".toList) ++ ty ++ ('/' :: oid)
    stringify := fun _ => [] }

/-- C3 witness: the input "invalid-id" fails the well-formedness check and
produces the invalid-ID error envelope. -/
theorem fetchExecute_invalidId_witness :
    claimValidId ("invalid-id".toList) = false ∧
    fetchExecute demoFetchEnv ("invalid-id".toList) = getErrorOutput invalidIdMessage ∧
    (fetchExecute demoFetchEnv ("invalid-id".toList)).isError = some true :=
  ⟨by decide,
    (fetchExecute_invalidId demoFetchEnv ("invalid-id".toList) (by decide)).1,
    (fetchExecute_invalidId demoFetchEnv ("invalid-id".toList) (by decide)).2.1⟩

/-- A mapped task with the given id and content (everything else minimal). -/
def demoNamedTask (id content : JStr) : MappedTask :=
  { id := id, content := content, description := [], dueDate := none, recurring := none,
    priority := 1, projectId := [], sectionId := none, parentId := none, labels := [],
    duration := none, responsibleUid := none, assignedByUid := none }

/-- A raw workspace project with the given id and name. -/
def demoProject (id name : JStr) : RawProject :=
  { id := id, name := name, color := ("charcoal".toList), isFavorite := false,
    isShared := false, viewStyle := ("list".toList), kind := ProjectKind.workspace }

/-- The todoist URL builder shape used in concrete examples. -/
def demoBuildUrl : JStr → JStr → JStr :=
  fun ty oid => ("https://app.todoist.com/app/".toList) ++ ty ++ ('/' :: oid)

/-- C5: the search results array is the upstream tasks, in order, with
composite `task:` ids, followed by exactly the projects whose name contains
the query case-insensitively, in order, with composite `project:` ids; the
search tool envelope serializes exactly this array; and the two-tasks /
two-projects scenario yields exactly three results in that order. -/
theorem searchResults_spec :
    (∀ (buildUrl : JStr → JStr → JStr) (query : JStr) (tasks : List MappedTask)
        (projects : List RawProject),
      searchResults buildUrl query tasks projects =
        tasks.map (fun task =>
          { id := ("task:".toList) ++ task.id
            title := task.content
            url := buildUrl ("task".toList) task.id }) ++
        (projects.filter (fun project =>
            hasSub (jsToLower project.name) (jsToLower query))).map (fun project =>
          { id := ("project:".toList) ++ project.id
            title := project.name
            url := buildUrl ("project".toList) project.id })) ∧
    (∀ (query : JStr) (rawTasks : List RawTask) (cursor : Option JStr)
        (projects : List RawProject) (buildUrl : JStr → JStr → JStr)
        (stringify : List SearchResult → JStr),
      searchExecute
          { tasksOutcome := Except.ok (rawTasks, cursor)
            projectsOutcome := Except.ok projects
            buildUrl := buildUrl
            stringifyResults := stringify } query =
        { content :=
            [{ text := stringify
                (searchResults buildUrl query (rawTasks.map mapTask) projects) }]
          isError := none }) ∧
    searchResults demoBuildUrl ("important".toList)
        [demoNamedTask ("task-1".toList) ("Important meeting task".toList),
         demoNamedTask ("task-2".toList) ("Another important item".toList)]
        [demoProject ("project-work".toList) ("Important Work Project".toList),
         demoProject ("project-test".toList) ("Test Project".toList)] =
      [{ id := ("task:task-1".toList)
         title := ("Important meeting task".toList)
         url := demoBuildUrl ("task".toList) ("task-1".toList) },
       { id := ("task:task-2".toList)
         title := ("Another important item".toList)
         url := demoBuildUrl ("task".toList) ("task-2".toList) },
       { id := ("project:project-work".toList)
         title := ("Important Work Project".toList)
         url := demoBuildUrl ("project".toList) ("project-work".toList) }] := by
  refine ⟨?_, ?_, ?_⟩
  · intro buildUrl query tasks projects
    unfold searchResults
    dsimp only
    rw [foldl_push_eq_map, foldl_push_eq_map]
    simp
  · intro query rawTasks cursor projects buildUrl stringify
    simp [searchExecute, getTasksByFilter]
  · decide


/-- The characters a `YYYY-MM-DD` date string is made of. -/
def dateStrChars : JStr := "0123456789-".toList

theorem natDigitChar_mem (n : Nat) : natDigitChar n ∈ digitChars := by
  unfold natDigitChar
  apply List.get_mem

theorem natDigitChar_mem_dateStrChars (n : Nat) : natDigitChar n ∈ dateStrChars := by
  have h1 := natDigitChar_mem n
  have h2 : ∀ x ∈ digitChars, x ∈ dateStrChars := by decide
  exact h2 _ h1

theorem pad2_mem (n : Nat) : ∀ c ∈ pad2 n, c ∈ dateStrChars := by
  intro c hc
  simp only [pad2, List.mem_cons, List.not_mem_nil, or_false] at hc
  rcases hc with rfl | rfl <;> exact natDigitChar_mem_dateStrChars _

theorem pad4_mem (n : Nat) : ∀ c ∈ pad4 n, c ∈ dateStrChars := by
  intro c hc
  simp only [pad4, List.mem_cons, List.not_mem_nil, or_false] at hc
  rcases hc with rfl | rfl | rfl | rfl <;> exact natDigitChar_mem_dateStrChars _

theorem formatISODate_mem (dt : CivilDate) : ∀ c ∈ formatISODate dt, c ∈ dateStrChars := by
  intro c hc
  unfold formatISODate at hc
  simp only [List.append_assoc, List.mem_append, List.mem_singleton] at hc
  rcases hc with h | h | h | h | h
  · exact pad4_mem _ _ h
  · subst h; decide
  · exact pad2_mem _ _ h
  · subst h; decide
  · exact pad2_mem _ _ h

/-- The filter-language meaning of the explicit-date fragment
`(due after: s | due: s) & due before: e` on whole due days, with the end
bound `e` the start day plus `n` days: strictly-after-or-on the start, and
strictly before the end. -/
def dueWindowMatches (t s : Int) (n : Nat) : Prop :=
  (s < t ∨ t = s) ∧ t < s + n

instance (t s : Int) (n : Nat) : Decidable (dueWindowMatches t s n) := by
  unfold dueWindowMatches
  infer_instance

/-- C2: the date fragments of find-tasks-by-date — `(today | overdue)` for
the `today` anchor unless overdue is excluded (then `today`), `overdue` for
overdue-only, and for an explicit start date the fragment
`(due after: d | due: d) & due before: e` with `e` the start plus `daysCount`
days; the window is half-open so `n = 1` selects exactly the start day, and
`overdue` never occurs in the fragment of an explicit date anchor. -/
theorem findTasksByDateDateFragment_spec :
    (∀ n, findTasksByDateDateFragment (some ("today".toList)) none n =
      ("(today | overdue)".toList)) ∧
    (∀ n, findTasksByDateDateFragment (some ("today".toList))
      (some OverdueOpt.includeOverdue) n = ("(today | overdue)".toList)) ∧
    (∀ n, findTasksByDateDateFragment (some ("today".toList))
      (some OverdueOpt.excludeOverdue) n = ("today".toList)) ∧
    (∀ sd n, findTasksByDateDateFragment sd (some OverdueOpt.overdueOnly) n =
      ("overdue".toList)) ∧
    (∀ d n (opt : Option OverdueOpt), opt ≠ some OverdueOpt.overdueOnly →
      d ≠ ("today".toList) →
      findTasksByDateDateFragment (some d) opt n =
        ("(due after: ".toList) ++ d ++ (" | due: ".toList) ++ d ++
          (") & due before: ".toList) ++ formatISODate (addDays (parseISODate d) n)) ∧
    (∀ (t s : Int) (n : Nat), 1 ≤ n →
      ((dueWindowMatches t s n ↔ (s ≤ t ∧ t < s + n)) ∧
        (n = 1 → (dueWindowMatches t s n ↔ t = s)))) ∧
    (∀ d n (opt : Option OverdueOpt), opt ≠ some OverdueOpt.overdueOnly →
      d ≠ ("today".toList) → (∀ c ∈ d, c ∈ dateStrChars) →
      hasSub (findTasksByDateDateFragment (some d) opt n) ("overdue".toList) = false) := by
  have hexplicit : ∀ (d : JStr) (n : Nat) (opt : Option OverdueOpt),
      opt ≠ some OverdueOpt.overdueOnly → d ≠ ("today".toList) →
      findTasksByDateDateFragment (some d) opt n =
        ("(due after: ".toList) ++ d ++ (" | due: ".toList) ++ d ++
          (") & due before: ".toList) ++ formatISODate (addDays (parseISODate d) n) := by
    intro d n opt h1 h2
    simp [findTasksByDateDateFragment, h1, h2]
    intro hd
    exact absurd hd h2
  refine ⟨?_, ?_, ?_, ?_, hexplicit, ?_, ?_⟩
  · intro n; simp [findTasksByDateDateFragment]
  · intro n; simp [findTasksByDateDateFragment]
  · intro n; simp [findTasksByDateDateFragment]
  · intro sd n; simp [findTasksByDateDateFragment]
  · intro t s n hn
    constructor
    · unfold dueWindowMatches; omega
    · intro hn1; subst hn1; unfold dueWindowMatches; omega
  · intro d n opt h1 h2 h3
    rw [hexplicit d n opt h1 h2]
    by_contra hsub
    rw [Bool.not_eq_false] at hsub
    have hv := hasSub_subset hsub 'v' (by decide)
    simp only [List.append_assoc, List.mem_append] at hv
    rcases hv with h | h | h | h | h | h
    · revert h; decide
    · exact absurd (h3 _ h) (by decide)
    · revert h; decide
    · exact absurd (h3 _ h) (by decide)
    · revert h; decide
    · exact absurd (formatISODate_mem _ _ h) (by decide)

/-- C2 witness: the explicit-date fragment and window facts at the concrete
start date 2025-08-20 with daysCount 1. -/
theorem findTasksByDateDateFragment_spec_witness :
    findTasksByDateDateFragment (some ("2025-08-20".toList)) none 1 =
      ("(due after: 2025-08-20 | due: 2025-08-20) & due before: 2025-08-21".toList) ∧
    (dueWindowMatches 20302 20302 1 ↔ (20302 : Int) = 20302) ∧
    hasSub (findTasksByDateDateFragment (some ("2025-08-20".toList)) none 1)
      ("overdue".toList) = false := by
  have h := findTasksByDateDateFragment_spec
  refine ⟨?_, ?_, ?_⟩
  · rw [h.2.2.2.2.1 ("2025-08-20".toList) 1 none (by decide) (by decide)]
    decide
  · exact (h.2.2.2.2.2.1 20302 20302 1 (by decide)).2 rfl
  · exact h.2.2.2.2.2.2 ("2025-08-20".toList) 1 none (by decide) (by decide) (by decide)


/-- A concrete find-tasks environment (all upstream calls succeed with empty
results; no collaborator matches). -/
def demoFindTasksEnv : FindTasksEnv :=
  { user := { id := ("user-1".toList) }
    resolveUserNameToId := fun _ => none
    getTasks := fun _ => Except.ok ([], none)
    getTasksByFilterOutcome := fun _ _ _ => Except.ok ([], none) }

/-- The find-tasks arguments with no discriminating filter at all. -/
def noFilterArgs : FindTasksArgs :=
  { searchText := none, projectId := none, sectionId := none, parentId := none,
    responsibleUser := none, responsibleUserFiltering := none, limit := 10,
    cursor := none, labels := none, labelsOperator := LabelsOp.or }

/-- C1 counterexample: on a no-filter invocation the run does reject with the
validation error enumerating the filter fields, but only after issuing the
`getUser` upstream call — the list of network calls made before the rejection
is `[getUser]`, not empty, refuting "before any network call". -/
theorem findTasks_noFilter_counterexample :
    (findTasksRun demoFindTasksEnv noFilterArgs).2 =
      Except.error (ThrownError.newError missingFilterMessage) ∧
    (findTasksRun demoFindTasksEnv noFilterArgs).1 = [ApiCall.getUser] ∧
    ¬ (findTasksRun demoFindTasksEnv noFilterArgs).1 = [] := by
  refine ⟨?_, ?_, ?_⟩ <;> decide

/-- C1 amended: on every invocation with no search text, no container id, no
responsible user and an absent or empty labels list, the run rejects with the
validation error whose message enumerates the acceptable filter fields, and
the only upstream call preceding the rejection is the unconditional initial
`getUser` call — no task-fetching call is ever issued. -/
theorem findTasks_noFilter_rejects (env : FindTasksEnv) (args : FindTasksArgs)
    (h1 : strTruthy args.searchText = false) (h2 : strTruthy args.projectId = false)
    (h3 : strTruthy args.sectionId = false) (h4 : strTruthy args.parentId = false)
    (h5 : strTruthy args.responsibleUser = false)
    (h6 : hasLabelsArg args.labels = false) :
    findTasksRun env args =
      ([ApiCall.getUser], Except.error (ThrownError.newError missingFilterMessage)) := by
  unfold findTasksRun
  simp [h1, h2, h3, h4, h5, h6]

/-- C1 witness: the amended rejection at the concrete no-filter arguments. -/
theorem findTasks_noFilter_rejects_witness :
    findTasksRun demoFindTasksEnv noFilterArgs =
      ([ApiCall.getUser], Except.error (ThrownError.newError missingFilterMessage)) :=
  findTasks_noFilter_rejects demoFindTasksEnv noFilterArgs (by decide) (by decide)
    (by decide) (by decide) (by decide) (by decide)


theorem isNull_removeNullFields (v : JValue) (h : v.isNull = false) :
    (removeNullFields v).isNull = false := by
  cases v <;> simp_all [removeNullFields, JValue.isNull]

mutual

theorem goodVal_removeNullFields : ∀ v : JValue, goodVal (removeNullFields v) = true
  | JValue.jnull => rfl
  | JValue.undef => rfl
  | JValue.bool _ => rfl
  | JValue.num _ => rfl
  | JValue.str _ => rfl
  | JValue.arr items => by
    simp only [removeNullFields, goodVal]
    exact goodArr_removeNullFieldsArr items
  | JValue.obj fields => by
    simp only [removeNullFields, goodVal]
    exact goodObj_removeNullFieldsObj fields

theorem goodArr_removeNullFieldsArr : ∀ a : JArray, goodArr (removeNullFieldsArr a) = true
  | JArray.nil => rfl
  | JArray.cons h t => by
    simp only [removeNullFieldsArr, goodArr, Bool.and_eq_true]
    exact ⟨goodVal_removeNullFields h, goodArr_removeNullFieldsArr t⟩

theorem goodObj_removeNullFieldsObj : ∀ o : JObject, goodObj (removeNullFieldsObj o) = true
  | JObject.nil => rfl
  | JObject.cons k v t => by
    simp only [removeNullFieldsObj]
    by_cases hnull : v.isNull = true
    · simp only [hnull, if_true]
      exact goodObj_removeNullFieldsObj t
    · rw [Bool.not_eq_true] at hnull
      simp only [hnull, Bool.false_eq_true, if_false]
      by_cases harr : (removeNullFields v).isEmptyArr = true
      · simp only [harr, if_true]
        exact goodObj_removeNullFieldsObj t
      · rw [Bool.not_eq_true] at harr
        simp only [harr, Bool.false_eq_true, if_false]
        by_cases hobj : (removeNullFields v).isEmptyObj = true
        · simp only [hobj, if_true]
          exact goodObj_removeNullFieldsObj t
        · rw [Bool.not_eq_true] at hobj
          simp only [hobj, Bool.false_eq_true, if_false, goodObj, Bool.and_eq_true]
          refine ⟨⟨⟨⟨?_, ?_⟩, ?_⟩, ?_⟩, ?_⟩
          · simp [isNull_removeNullFields v hnull]
          · simp [harr]
          · simp [hobj]
          · exact goodVal_removeNullFields v
          · exact goodObj_removeNullFieldsObj t

end

theorem removeNullFieldsArr_toList : ∀ items : JArray,
    JArray.toList (removeNullFieldsArr items) = (JArray.toList items).map removeNullFields
  | JArray.nil => rfl
  | JArray.cons h t => by
    simp only [removeNullFieldsArr, JArray.toList, List.map_cons]
    rw [removeNullFieldsArr_toList t]

/-- C10: removeNullFields returns null/undefined unchanged, preserves scalars
and array element order, drops exactly the object fields holding null or
sanitizing to an empty object/array while keeping all other fields with their
recursively sanitized values, and its output satisfies, at every nesting
depth, that no field holds null, an empty object, or an empty array. -/
theorem removeNullFields_spec :
    removeNullFields JValue.jnull = JValue.jnull ∧
    removeNullFields JValue.undef = JValue.undef ∧
    (∀ b, removeNullFields (JValue.bool b) = JValue.bool b) ∧
    (∀ n, removeNullFields (JValue.num n) = JValue.num n) ∧
    (∀ s, removeNullFields (JValue.str s) = JValue.str s) ∧
    (∀ items, removeNullFields (JValue.arr items) = JValue.arr (removeNullFieldsArr items)) ∧
    (∀ items, JArray.toList (removeNullFieldsArr items) =
      (JArray.toList items).map removeNullFields) ∧
    (∀ k v t, v.isNull = true →
      removeNullFieldsObj (JObject.cons k v t) = removeNullFieldsObj t) ∧
    (∀ k v t, v.isNull = false → (removeNullFields v).isEmptyArr = false →
      (removeNullFields v).isEmptyObj = false →
      removeNullFieldsObj (JObject.cons k v t) =
        JObject.cons k (removeNullFields v) (removeNullFieldsObj t)) ∧
    (∀ v, goodVal (removeNullFields v) = true) := by
  refine ⟨?_, ?_, ?_, ?_, ?_, ?_, ?_, ?_, ?_, ?_⟩
  · rfl
  · rfl
  · intro b; rfl
  · intro n; rfl
  · intro s; rfl
  · intro items; rfl
  · exact removeNullFieldsArr_toList
  · intro k v t hnull
    simp [removeNullFieldsObj, hnull]
  · intro k v t hnull harr hobj
    simp [removeNullFieldsObj, hnull, harr, hobj]
  · exact goodVal_removeNullFields

/-- C10 witness: the object-field conjuncts at concrete fields (a null field
is dropped; a kept string field keeps its sanitized value). -/
theorem removeNullFields_spec_witness :
    (JValue.jnull.isNull = true ∧
      removeNullFieldsObj (JObject.cons ("age".toList) JValue.jnull JObject.nil) =
        removeNullFieldsObj JObject.nil) ∧
    ((JValue.str ("x".toList)).isNull = false ∧
      (removeNullFields (JValue.str ("x".toList))).isEmptyArr = false ∧
      (removeNullFields (JValue.str ("x".toList))).isEmptyObj = false ∧
      removeNullFieldsObj (JObject.cons ("name".toList) (JValue.str ("x".toList)) JObject.nil) =
        JObject.cons ("name".toList) (removeNullFields (JValue.str ("x".toList)))
          (removeNullFieldsObj JObject.nil)) :=
  ⟨⟨rfl, removeNullFields_spec.2.2.2.2.2.2.2.1 ("age".toList) JValue.jnull JObject.nil rfl⟩,
    ⟨rfl, rfl, rfl,
      removeNullFields_spec.2.2.2.2.2.2.2.2.1 ("name".toList) (JValue.str ("x".toList))
        JObject.nil rfl rfl rfl⟩⟩

end TodoistAI
